import Mathlib

/-!
Shallow embedding of the nistdemo risk-scoring core
(`src/risk_scorer.py`, `src/csf_mapper.py`, `src/action_planner.py`).

Python floats are modelled as rationals (`ℚ`); Python's `int(x)` cast
(truncation toward zero) is `pyInt`; Python exceptions that escape a
function are modelled with `Except`.  External-provider responses
(NVD vulnerability lookups, FRED series fetches) and the wall clock are
passed as explicit parameters, since they are inputs of the computation.
-/

namespace NistDemo

/-- Python `int(x)` applied to a float/rational: truncation toward zero. -/
def pyInt (q : ℚ) : ℤ := if q < 0 then ⌈q⌉ else ⌊q⌋

/-- Substring containment test, mirroring Python's `term in string`. -/
def strContains (s pat : String) : Bool :=
  s.data.tails.any (fun t => pat.data.isPrefixOf t)

/-- Python's `str.lower()`, as a character-by-character map (defined on
the underlying character list so that it reduces definitionally). -/
def strToLower (s : String) : String := ⟨s.data.map Char.toLower⟩

/-- Risk severity levels (`models.RiskLevel`). -/
inductive RiskLevel where
  | critical
  | high
  | medium
  | low
deriving DecidableEq

/-- The string value of each `RiskLevel` enum member. -/
def RiskLevel.toStr : RiskLevel → String
  | .critical => "Critical"
  | .high => "High"
  | .medium => "Medium"
  | .low => "Low"

/-- A system configuration dictionary after applying the per-key defaults
used by `dict.get` in the source (`data_encryption` and `access_controls`
default to `True`, the other posture flags to `False`). -/
structure SystemConfig where
  system_name : String
  model_type : String
  data_sources : List String
  deployment_env : String
  third_party_libs : List String
  data_lineage_documented : Bool
  drift_monitoring_enabled : Bool
  data_encryption : Bool
  access_controls : Bool
  data_integrity_checks : Bool
  supply_chain_policy : Bool
  vendor_assessment : Bool
deriving DecidableEq

/-- `RiskScorer._assess_third_party_risk`: sum per-library vulnerability
scores (the per-library lookup is the external provider `vulnScore`),
add volume and concentration penalties, clamp to [0, 20]. -/
def assess_third_party_risk (vulnScore : String → ℕ) (libraries : List String) : ℕ :=
  if libraries = [] then 0
  else
    let scores := libraries.map vulnScore
    let risk := scores.sum
    let high_risk_libs := (scores.filter (fun s => 5 ≤ s)).length
    let risk := risk +
      (if 15 < libraries.length then 5
       else if 10 < libraries.length then 3
       else if 5 < libraries.length then 1 else 0)
    let risk := risk +
      (if 3 < high_risk_libs then 3
       else if 1 < high_risk_libs then 1 else 0)
    min risk 20

/-- The black-box model-type terms tested in `assess_system`. -/
def blackBoxTerms : List String := ["neural", "deep", "black"]

/-- Whether the model type matches a black-box term
(`any(term in model_type for term in ["neural", "deep", "black"])`
after lowercasing). -/
def isBlackBoxType (model_type : String) : Bool :=
  blackBoxTerms.any (fun term => strContains (strToLower model_type) term)

/-- The pre-multiplier accumulator value of `RiskScorer.assess_system`
(the sequence of `risk_score +=` statements before the economic
multiplier is applied). -/
def base_risk_score (vulnScore : String → ℕ) (cfg : SystemConfig) : ℕ :=
  (if cfg.data_lineage_documented then 0 else 20)
  + (if isBlackBoxType cfg.model_type then 15 else 0)
  + (if cfg.drift_monitoring_enabled then 0 else 25)
  + assess_third_party_risk vulnScore cfg.third_party_libs
  + (if cfg.data_encryption then 0 else 10)
  + (if cfg.access_controls then 0 else 5)

/-- Result dictionary of `RiskScorer.assess_system`. -/
structure Assessment where
  overall_risk_score : ℤ
  risk_factors : List String
  economic_multiplier : ℚ
  assessment_timestamp : String
deriving DecidableEq

/-- `RiskScorer.assess_system`.  `vulnScore` is the external per-library
vulnerability provider, `econMult` the resolved economic stress
multiplier, and `now` the current wall-clock reading used for the
`assessment_timestamp` field (`datetime.utcnow().isoformat()`). -/
def assess_system (vulnScore : String → ℕ) (econMult : ℚ) (now : String)
    (cfg : SystemConfig) : Assessment :=
  let third_party_risk := assess_third_party_risk vulnScore cfg.third_party_libs
  let base_score := base_risk_score vulnScore cfg
  let risk_score : ℤ := pyInt ((base_score : ℚ) * econMult)
  let risk_score : ℤ := min risk_score 100
  let risk_factors :=
    (if cfg.data_lineage_documented then [] else ["Missing data lineage documentation"])
    ++ (if isBlackBoxType cfg.model_type then ["Black-box model with limited explainability"] else [])
    ++ (if cfg.drift_monitoring_enabled then [] else ["No ML model drift monitoring"])
    ++ (if 10 < third_party_risk then ["High-risk third-party dependencies"] else [])
    ++ (if cfg.data_encryption then [] else ["Data encryption not implemented"])
    ++ (if cfg.access_controls then [] else ["Insufficient access controls"])
    ++ (if 6/5 < econMult then
          ["Elevated economic stress (multiplier: " ++ toString econMult ++ ")"] else [])
    ++ (if 95 < base_score then ["Note: Base risk factors exceed design parameters"] else [])
  { overall_risk_score := risk_score
    risk_factors := risk_factors
    economic_multiplier := econMult
    assessment_timestamp := now }

/-- `RiskScorer._fallback_economic_stress`. -/
def fallback_economic_stress : ℚ := max 1 (min (6/5) 2)

/-- `RiskScorer._calculate_stress_multiplier`.  A `none` argument stands
for a FRED series fetch that failed, timed out, or had no data
(`_fetch_fred_series` returns `None` in all those cases). -/
def calculate_stress_multiplier (vix gdp_growth : Option ℚ) : ℚ :=
  let m : ℚ := 1
  let m := m + (match vix with
    | some v =>
      if 40 < v then 4/5
      else if 30 < v then 1/2
      else if 25 < v then 3/10
      else if 20 < v then 1/10
      else 0
    | none => 0)
  let m := m + (match gdp_growth with
    | some g =>
      if g < -2 then 7/10
      else if g < 0 then 1/2
      else if g < 1 then 3/10
      else if g < 2 then 1/10
      else 0
    | none => 0)
  m

/-- `RiskScorer._fetch_economic_stress_indicator`:  `fredApiKey = none`
models a missing `FRED_API_KEY`; `vix`/`gdp` are the two series fetch
results.  The body's `except` branch also returns the fallback, and is
unreachable here because every modelled sub-step is total. -/
def fetch_economic_stress_indicator (fredApiKey : Option String)
    (vix gdp : Option ℚ) : ℚ :=
  match fredApiKey with
  | none => fallback_economic_stress
  | some _ => max 1 (min (calculate_stress_multiplier vix gdp) 2)

/-- `RiskScorer._get_economic_stress_multiplier`.  The cache is an
optional `(stress_level, timestamp)` pair and `now` the current
`datetime.utcnow().timestamp()` reading. -/
def get_economic_stress_multiplier (cache : Option (ℚ × ℚ)) (now : ℚ)
    (fredApiKey : Option String) (vix gdp : Option ℚ) : ℚ :=
  match cache with
  | some (stress_level, ts) =>
    if now - ts < 3600 then stress_level
    else fetch_economic_stress_indicator fredApiKey vix gdp
  | none => fetch_economic_stress_indicator fredApiKey vix gdp

/-- A NIST CSF compliance gap (`models.CSFGap`). -/
structure CSFGap where
  category : String
  description : String
  severity : RiskLevel
deriving DecidableEq

/-- `CSFMapper.identify_gaps`.  The source reads
`risk_assessment.get("overall_risk_score", 0)`; the already-extracted
score is passed here directly. -/
def identify_gaps (cfg : SystemConfig) (overall_risk_score : ℤ) : List CSFGap :=
  (if cfg.supply_chain_policy then [] else
    [⟨"GV.SC-01", "Missing cybersecurity supply chain risk management strategy", .high⟩])
  ++ (if cfg.data_lineage_documented then [] else
    [⟨"ID.AM-03", "Data flow and lineage not documented", .medium⟩])
  ++ (if cfg.drift_monitoring_enabled then [] else
    [⟨"DE.CM-07", "ML model drift monitoring not implemented", .high⟩])
  ++ (if cfg.third_party_libs ≠ [] ∧ ¬cfg.vendor_assessment then
    [⟨"ID.SC-04", "Third-party ML libraries not assessed for security", .medium⟩] else [])
  ++ (if cfg.data_integrity_checks then [] else
    [⟨"PR.DS-06", "Training data integrity verification not implemented",
      if 70 < overall_risk_score then .critical else .high⟩])

/-- An entry of the `ai_risk_categories` catalog in `ai_risks.json`
(the fields the mapper reads: `description`, `base_risk_score`,
`csf_mappings`, `supply_chain_impact`). -/
structure RiskTypeEntry where
  description : String
  base_risk_score : ℤ
  csf_mappings : List String
  supply_chain_impact : String

/-- One element of the `categories` list built by `map_risk_to_csf`. -/
structure MappedCategory where
  code : String
  severity : RiskLevel
  description : String

/-- Result dictionary of `map_risk_to_csf` for a recognized risk type. -/
structure RiskMapping where
  categories : List MappedCategory
  description : String
  supply_chain_impact : String

/-- The fixed `critical_categories` list of `_assess_category_severity`. -/
def critical_categories : List String := ["GV.SC-01", "PR.DS-06", "ID.RA-01"]

/-- The fixed `high_categories` list of `_assess_category_severity`. -/
def high_categories : List String := ["DE.CM-07", "GV.SC-04", "PR.DS-08"]

/-- `CSFMapper._assess_category_severity`, as a function of the risk
type's base score (the source re-reads it from the catalog entry). -/
def assess_category_severity (base_score : ℤ) (csf_category : String) : RiskLevel :=
  if csf_category ∈ critical_categories ∧ 30 < base_score then .critical
  else if csf_category ∈ high_categories ∨ 25 < base_score then .high
  else if 15 < base_score then .medium
  else .low

/-- Python's `x or fallback` on an optional string: the fallback is used
both when the lookup missed and when it returned the empty (falsy) string. -/
def pyStrOr (o : Option String) (fallback : String) : String :=
  match o with
  | some s => if s = "" then fallback else s
  | none => fallback

/-- Modelled from the spec: the `ai_risks.json` and `csf_categories.json`
data files are not under `src/`, so the catalog and the taxonomy
description search (`get_csf_category_description`) are abstracted as
lookup functions passed in as parameters.  With them, this is
`CSFMapper.map_risk_to_csf` from the source. -/
def map_risk_to_csf (catalog : String → Option RiskTypeEntry)
    (categoryDescription : String → Option String)
    (risk_type : String) : Option RiskMapping :=
  match catalog risk_type with
  | none => none
  | some risk_data =>
    some { categories := risk_data.csf_mappings.map (fun c =>
             { code := c
               severity := assess_category_severity risk_data.base_risk_score c
               description := pyStrOr (categoryDescription c) ("NIST CSF category " ++ c) })
           description := risk_data.description
           supply_chain_impact := risk_data.supply_chain_impact }

/-- A remediation template entry
(`ActionPlanner._load_remediation_templates` values). -/
structure RemediationTemplate where
  title : String
  description : String
  actions : List String
  effort : String
  timeline : String
  priority : String

/-- `ActionPlanner._load_remediation_templates`: the static template
catalog, keyed by CSF category code. -/
def remediation_templates : String → Option RemediationTemplate := fun category =>
  if category = "GV.SC-01" then some
    { title := "Establish Supply Chain Risk Management Strategy"
      description := "Develop comprehensive cybersecurity supply chain risk management program"
      actions := [
        "Draft supply chain cybersecurity policy document",
        "Define roles and responsibilities for supply chain security",
        "Establish supplier security assessment criteria",
        "Create incident response procedures for supply chain events",
        "Implement regular supplier security reviews"]
      effort := "High", timeline := "60-90 days", priority := "Critical" }
  else if category = "GV.OC-02" then some
    { title := "Implement AI Governance and Transparency"
      description := "Establish oversight and transparency for AI decision-making processes"
      actions := [
        "Create AI governance committee with cross-functional representation",
        "Develop AI ethics and responsible use guidelines",
        "Implement AI decision audit trails and logging",
        "Establish human oversight requirements for critical AI decisions",
        "Create AI risk tolerance and acceptance criteria"]
      effort := "Medium", timeline := "30-60 days", priority := "High" }
  else if category = "ID.RA-01" then some
    { title := "Comprehensive AI Asset Vulnerability Assessment"
      description := "Identify and document vulnerabilities in AI/ML system components"
      actions := [
        "Conduct thorough inventory of all AI system components",
        "Perform vulnerability scanning on AI infrastructure",
        "Assess model architecture for inherent vulnerabilities",
        "Evaluate training data sources for integrity risks",
        "Document all identified vulnerabilities with severity ratings"]
      effort := "Medium", timeline := "14-30 days", priority := "High" }
  else if category = "ID.AM-03" then some
    { title := "Implement Data Lineage Documentation"
      description := "Establish comprehensive data flow and lineage tracking"
      actions := [
        "Map all data sources feeding into AI systems",
        "Document data transformation and processing steps",
        "Implement automated data lineage tracking tools",
        "Create data quality monitoring and validation processes",
        "Establish data provenance verification procedures"]
      effort := "Medium", timeline := "30-45 days", priority := "Medium" }
  else if category = "ID.SC-04" then some
    { title := "Third-Party Component Security Assessment"
      description := "Assess and prioritize security of third-party ML libraries and dependencies"
      actions := [
        "Inventory all third-party ML libraries and dependencies",
        "Assess security posture of critical ML library vendors",
        "Implement dependency vulnerability scanning",
        "Establish approved library whitelist and approval process",
        "Create vendor security questionnaire and assessment program"]
      effort := "Medium", timeline := "21-45 days", priority := "Medium" }
  else if category = "PR.DS-06" then some
    { title := "Implement Training Data Integrity Verification"
      description := "Establish cryptographic and procedural controls for training data integrity"
      actions := [
        "Implement cryptographic hashing for training datasets",
        "Establish data integrity verification procedures",
        "Deploy automated data validation and anomaly detection",
        "Create secure data storage and access controls",
        "Implement training data version control and audit trails"]
      effort := "High", timeline := "45-90 days", priority := "Critical" }
  else if category = "PR.AC-07" then some
    { title := "Implement Access Controls for AI Systems"
      description := "Establish robust access controls and authentication for AI system components"
      actions := [
        "Implement multi-factor authentication for AI system access",
        "Establish role-based access controls (RBAC) for AI operations",
        "Deploy privileged access management (PAM) for AI infrastructure",
        "Create API security and rate limiting controls",
        "Implement session management and timeout controls"]
      effort := "Medium", timeline := "30-60 days", priority := "High" }
  else if category = "DE.CM-07" then some
    { title := "Deploy Continuous ML Model Monitoring"
      description := "Implement comprehensive monitoring for ML model performance and drift"
      actions := [
        "Deploy automated model drift detection systems",
        "Implement performance degradation alerting",
        "Create model behavior anomaly detection",
        "Establish baseline performance metrics and thresholds",
        "Implement real-time model prediction monitoring"]
      effort := "High", timeline := "30-60 days", priority := "Critical" }
  else if category = "DE.AE-02" then some
    { title := "Implement Adversarial Attack Detection"
      description := "Deploy systems to detect adversarial examples and input manipulation"
      actions := [
        "Implement input validation and sanitization",
        "Deploy adversarial example detection algorithms",
        "Create statistical input distribution monitoring",
        "Establish input anomaly detection and alerting",
        "Implement ensemble model consensus checking"]
      effort := "High", timeline := "60-90 days", priority := "High" }
  else if category = "RS.AN-01" then some
    { title := "Establish AI Incident Analysis Procedures"
      description := "Create procedures for investigating and analyzing AI-related security incidents"
      actions := [
        "Develop AI-specific incident response playbooks",
        "Train incident response team on AI system forensics",
        "Establish model rollback and recovery procedures",
        "Create AI incident classification and severity matrix",
        "Implement automated incident data collection for AI systems"]
      effort := "Medium", timeline := "21-45 days", priority := "Medium" }
  else if category = "RC.RP-04" then some
    { title := "Develop AI System Recovery Planning"
      description := "Establish recovery procedures for AI system failures and incidents"
      actions := [
        "Create AI system backup and recovery procedures",
        "Develop model retraining and redeployment protocols",
        "Establish fallback procedures for AI system failures",
        "Create business continuity plans for AI-dependent operations",
        "Implement automated recovery testing and validation"]
      effort := "Medium", timeline := "30-60 days", priority := "Medium" }
  else none

/-- A cost estimate entry (`ActionPlanner._build_cost_estimates` values). -/
structure CostEstimate where
  min : ℕ
  max : ℕ
  description : String
deriving DecidableEq

/-- `ActionPlanner._estimate_cost` composed with the cost matrix: the
`Medium` row is the `dict.get` fallback for unknown effort levels. -/
def estimate_cost (effort_level : String) : CostEstimate :=
  if effort_level = "Low" then
    ⟨5000, 15000, "Primarily process and policy changes"⟩
  else if effort_level = "Medium" then
    ⟨15000, 50000, "Some tooling and system modifications"⟩
  else if effort_level = "High" then
    ⟨50000, 150000, "Significant system changes and new tools"⟩
  else
    ⟨15000, 50000, "Some tooling and system modifications"⟩

/-- `ActionPlanner._load_nist_references` (without its `default` key,
which is exposed separately below). -/
def nist_references : String → Option String := fun code =>
  if code = "GV.SC-01" then some "https://nvlpubs.nist.gov/nistpubs/CSWP/NIST.CSWP.29.pdf#page=25"
  else if code = "GV.SC-02" then some "https://nvlpubs.nist.gov/nistpubs/CSWP/NIST.CSWP.29.pdf#page=25"
  else if code = "GV.SC-03" then some "https://nvlpubs.nist.gov/nistpubs/CSWP/NIST.CSWP.29.pdf#page=25"
  else if code = "GV.SC-04" then some "https://nvlpubs.nist.gov/nistpubs/CSWP/NIST.CSWP.29.pdf#page=25"
  else if code = "GV.OC-02" then some "https://nvlpubs.nist.gov/nistpubs/CSWP/NIST.CSWP.29.pdf#page=23"
  else if code = "ID.RA-01" then some "https://nvlpubs.nist.gov/nistpubs/ai/NIST.AI.100-1.pdf#page=45"
  else if code = "ID.AM-03" then some "https://nvlpubs.nist.gov/nistpubs/CSWP/NIST.CSWP.29.pdf#page=30"
  else if code = "ID.SC-04" then some "https://nvlpubs.nist.gov/nistpubs/CSWP/NIST.CSWP.29.pdf#page=32"
  else if code = "PR.DS-06" then some "https://nvlpubs.nist.gov/nistpubs/SpecialPublications/NIST.SP.800-53r5.pdf#page=195"
  else if code = "PR.DS-08" then some "https://nvlpubs.nist.gov/nistpubs/SpecialPublications/NIST.SP.800-53r5.pdf#page=195"
  else if code = "DE.CM-07" then some "https://nvlpubs.nist.gov/nistpubs/CSWP/NIST.CSWP.29.pdf#page=40"
  else if code = "DE.AE-02" then some "https://nvlpubs.nist.gov/nistpubs/CSWP/NIST.CSWP.29.pdf#page=39"
  else if code = "RS.AN-01" then some "https://nvlpubs.nist.gov/nistpubs/CSWP/NIST.CSWP.29.pdf#page=43"
  else if code = "RS.AN-02" then some "https://nvlpubs.nist.gov/nistpubs/CSWP/NIST.CSWP.29.pdf#page=43"
  else if code = "RC.RP-04" then some "https://nvlpubs.nist.gov/nistpubs/CSWP/NIST.CSWP.29.pdf#page=46"
  else none

/-- The `default` entry of the NIST reference table. -/
def default_nist_reference : String :=
  "https://nvlpubs.nist.gov/nistpubs/CSWP/NIST.CSWP.29.pdf"

/-- `ActionPlanner._generate_success_criteria`. -/
def generate_success_criteria (category : String) : List String :=
  if category = "GV.SC-01" then [
    "Supply chain risk management policy approved and published",
    "Supplier security assessment program operational",
    "100% of critical suppliers assessed within 90 days"]
  else if category = "PR.DS-06" then [
    "Cryptographic integrity verification implemented for all training data",
    "Automated data validation processes operational",
    "Zero data integrity incidents in 30-day period"]
  else if category = "DE.CM-07" then [
    "Model drift detection system deployed and operational",
    "Performance monitoring dashboards accessible to operations team",
    "Automated alerting functional with <5 minute response time"]
  else [
    "Implementation completed and tested",
    "Documentation updated and approved",
    "Team trained on new procedures"]

/-- Split the reversed digit list of a number into groups of three, for
thousands grouping. -/
def chunk3 : List Char → List (List Char)
  | [] => []
  | a :: b :: c :: d :: rest => [a, b, c] :: chunk3 (d :: rest)
  | xs => [xs]

/-- Python's `f"{n:,}"` thousands-separated rendering of a natural number. -/
def commaFmt (n : ℕ) : String :=
  ⟨(List.intercalate [','] (chunk3 (toString n).data.reverse)).reverse⟩

/-- A simple-form action plan item (`models.ActionPlan`). -/
structure ActionPlan where
  action : String
  category : String
  priority : String
  timeline : String
  cost_estimate : String
  success_criteria : String
  nist_reference : String
deriving DecidableEq

/-- The priority string assigned per gap in
`generate_action_plan_simple`. -/
def simple_priority (severity : RiskLevel) : String :=
  if severity = .critical ∨ severity = .high then "High" else "Medium"

/-- The item-building loop of `ActionPlanner.generate_action_plan_simple`
(everything before the sort and the top-10 cap): gaps whose category has
no remediation template produce no item. -/
def simple_plan_items (csf_gaps : List CSFGap) : List ActionPlan :=
  csf_gaps.filterMap (fun gap =>
    match remediation_templates gap.category with
    | none => none
    | some template => some
      { action := template.title
        category := gap.category
        priority := simple_priority gap.severity
        timeline := template.timeline
        cost_estimate :=
          "$" ++ commaFmt (estimate_cost template.effort).min
          ++ " - $" ++ commaFmt (estimate_cost template.effort).max
        success_criteria := String.intercalate "; " (generate_success_criteria gap.category)
        nist_reference := (nist_references gap.category).getD default_nist_reference })

/-- The sort comparator of `generate_action_plan_simple`:
`key=lambda x: (0 if x.priority == "High" else 1, x.category)`,
compared lexicographically. -/
def plan_le (a b : ActionPlan) : Bool :=
  let ka : ℕ := if a.priority = "High" then 0 else 1
  let kb : ℕ := if b.priority = "High" then 0 else 1
  decide (ka < kb ∨ (ka = kb ∧ a.category ≤ b.category))

/-- `ActionPlanner.generate_action_plan_simple`: build the items, sort
them by (priority rank, category), return the top 10.  `system_config`
and `overall_risk_score` are kept as parameters for fidelity; the
source only uses them in a dead local (`urgency`). -/
def generate_action_plan_simple (csf_gaps : List CSFGap)
    (system_config : SystemConfig) (overall_risk_score : ℤ) : List ActionPlan :=
  let _ := system_config
  let _ := overall_risk_score
  ((simple_plan_items csf_gaps).mergeSort plan_le).take 10

/-- `ActionPlanner._calculate_urgency`. -/
def calculate_urgency (severity : RiskLevel) (overall_risk_score : ℤ) : String :=
  if severity = .critical ∨ 80 ≤ overall_risk_score then "Immediate"
  else if severity = .high ∨ 60 ≤ overall_risk_score then "High"
  else if severity = .medium ∨ 40 ≤ overall_risk_score then "Medium"
  else "Low"

/-- `ActionPlanner._assign_responsible_team`:  keyed on
`category.split('.')[0]`, with `Information Security Team` as the
`dict.get` fallback. -/
def assign_responsible_team (category : String) : String :=
  let function := category.takeWhile (fun c => c ≠ '.')
  if function = "GV" then "Governance, Risk & Compliance (GRC)"
  else if function = "ID" then "Security Operations Center (SOC)"
  else if function = "PR" then "Information Security Team"
  else if function = "DE" then "Security Operations Center (SOC)"
  else if function = "RS" then "Incident Response Team"
  else if function = "RC" then "Business Continuity Team"
  else "Information Security Team"

/-- `ActionPlanner._identify_dependencies`. -/
def identify_dependencies (category : String) (all_gaps : List CSFGap) : List String :=
  (if category = "DE.CM-07" ∧ all_gaps.any (fun gap => gap.category = "ID.AM-03") then
    ["ID.AM-03: Data lineage documentation must be completed first"] else [])
  ++ (if category.startsWith "PR." then
        let id_gaps := (all_gaps.filter (fun gap => gap.category.startsWith "ID.")).map
          (fun gap => gap.category)
        if id_gaps ≠ [] then
          ["Complete identification phase first: " ++ String.intercalate ", " (id_gaps.take 2)]
        else []
      else [])

/-- A system-specific recommendation dictionary
(`_generate_system_specific_actions` list elements). -/
structure SystemRecommendation where
  category : String
  recommendation : String
  timeline : String
  effort : String

/-- `ActionPlanner._generate_system_specific_actions`.  `risk_score` is
accepted and unused, as in the source. -/
def generate_system_specific_actions (cfg : SystemConfig) (risk_score : ℤ) :
    List SystemRecommendation :=
  let _ := risk_score
  (if strContains (strToLower cfg.model_type) "neural" ∨ strContains (strToLower cfg.model_type) "deep" then
    [{ category := "Model Explainability"
       recommendation := "Implement explainable AI techniques (SHAP, LIME) for black-box model transparency"
       timeline := "45-60 days", effort := "Medium" }] else [])
  ++ (if strContains (strToLower cfg.deployment_env) "cloud" then
    [{ category := "Cloud Security"
       recommendation := "Implement cloud-specific security controls and shared responsibility model documentation"
       timeline := "30-45 days", effort := "Medium" }] else [])
  ++ (let external_sources := cfg.data_sources.filter (fun src =>
        ["api", "external", "social", "web"].any (fun term => strContains (strToLower src) term))
      if external_sources ≠ [] then
        [{ category := "External Data Security"
           recommendation := "Implement enhanced validation and monitoring for external data sources: "
             ++ String.intercalate ", " (external_sources.take 3)
           timeline := "21-30 days", effort := "Medium" }] else [])

/-- The static dictionary returned by
`ActionPlanner._generate_success_metrics`. -/
structure SuccessMetrics where
  risk_score_target : String
  compliance_target : String
  operational_metrics : List String
  business_metrics : List String

/-- `ActionPlanner._generate_success_metrics`. -/
def generate_success_metrics : SuccessMetrics :=
  { risk_score_target := "Reduce overall risk score to <40 (Medium risk)"
    compliance_target := "Achieve 95% CSF compliance within 6 months"
    operational_metrics := [
      "Zero critical security incidents related to AI systems",
      "100% of remediation actions completed within timeline",
      "All team members trained on new security procedures"]
    business_metrics := [
      "Maintain AI system availability >99.5%",
      "Zero regulatory compliance violations",
      "Audit readiness achieved within 90 days"] }

/-- Per-gap reduction estimate inside `_calculate_risk_reduction`. -/
def severity_reduction : RiskLevel → ℕ
  | .critical => 20
  | .high => 15
  | .medium => 10
  | .low => 5

/-- Result dictionary of `ActionPlanner._calculate_risk_reduction`. -/
structure RiskReduction where
  current_risk_score : ℤ
  projected_risk_score : ℤ
  estimated_reduction : ℤ
  reduction_percentage : String
  target_risk_level : String

/-- `ActionPlanner._calculate_risk_reduction`.  The
`reduction_percentage` field divides by `current_score`; when that is
zero Python raises an uncaught `ZeroDivisionError`, modelled as the
`Except.error` branch (rational division by zero would silently give 0,
so the raising case is made explicit). -/
def calculate_risk_reduction (csf_gaps : List CSFGap) (current_score : ℤ) :
    Except String RiskReduction :=
  let total_reduction : ℕ := (csf_gaps.map (fun gap => severity_reduction gap.severity)).sum
  let max_reduction : ℚ := min (total_reduction : ℚ) ((current_score : ℚ) * (3/5))
  let projected_score : ℚ := max ((current_score : ℚ) - max_reduction) 15
  if current_score = 0 then .error "ZeroDivisionError: division by zero"
  else .ok
    { current_risk_score := current_score
      projected_risk_score := pyInt projected_score
      estimated_reduction := pyInt max_reduction
      reduction_percentage :=
        toString (pyInt (max_reduction / (current_score : ℚ) * 100)) ++ "%"
      target_risk_level :=
        if projected_score < 40 then "Low"
        else if projected_score < 60 then "Medium"
        else "High" }

/-- `ActionPlanner._generate_executive_summary` (the post-`.strip()`
string).  The `{total_cost*1.2:,.0f}` float formatting is rendered via
`pyInt`; all reachable `total_cost` values are multiples of 1000, for
which `total_cost * 1.2` is exact, so no rounding-mode choice arises.
The final line's `len([g for g in [] ...])` is the constant 0. -/
def generate_executive_summary (total_gaps : ℕ) (risk_score : ℤ) (total_cost : ℕ) : String :=
  let risk_level :=
    if 80 ≤ risk_score then "Critical" else if 60 ≤ risk_score then "High" else "Medium"
  "This AI system presents " ++ risk_level.toLower
    ++ " cybersecurity risk with " ++ toString total_gaps
    ++ " NIST CSF compliance gaps identified. \nThe remediation plan addresses all critical vulnerabilities through a phased approach over 3-6 months.\n\nKey highlights:\n• "
    ++ toString total_gaps
    ++ " compliance gaps across multiple NIST CSF functions\n• Estimated investment: $"
    ++ commaFmt total_cost ++ " - $" ++ commaFmt (pyInt ((total_cost : ℚ) * (6/5))).toNat
    ++ "\n• Projected risk reduction: " ++ toString risk_score ++ " → "
    ++ toString (max (risk_score - 30) 15)
    ++ " points\n• Timeline: 3-6 months for complete implementation\n• ROI: Prevention of potential multi-million dollar AI-related incidents\n\nImmediate action required for 0 critical security gaps."

/-- An action-item dictionary built inside `generate_action_plan`. -/
structure DetailedActionItem where
  csf_category : String
  title : String
  description : String
  severity : RiskLevel
  urgency : String
  effort_level : String
  estimated_timeline : String
  detailed_actions : List String
  estimated_cost : CostEstimate
  success_criteria : List String
  responsible_team : String
  dependencies : List String

/-- `ActionPlanner._severity_sort_key` (restricted to `RiskLevel`
values, which is all the detailed items carry). -/
def severity_sort_key (severity : RiskLevel) : ℕ :=
  match severity with
  | .critical => 0
  | .high => 1
  | .medium => 2
  | .low => 3

/-- One iteration of the per-gap loop of `generate_action_plan`: gaps
without a remediation template are skipped. -/
def detailed_item (all_gaps : List CSFGap) (overall_risk_score : ℤ) (gap : CSFGap) :
    Option DetailedActionItem :=
  match remediation_templates gap.category with
  | none => none
  | some template => some
    { csf_category := gap.category
      title := template.title
      description := template.description
      severity := gap.severity
      urgency := calculate_urgency gap.severity overall_risk_score
      effort_level := template.effort
      estimated_timeline := template.timeline
      detailed_actions := template.actions
      estimated_cost := estimate_cost template.effort
      success_criteria := generate_success_criteria gap.category
      responsible_team := assign_responsible_team gap.category
      dependencies := identify_dependencies gap.category all_gaps }

/-- A phase dictionary of the detailed plan. -/
structure PhasePlan where
  timeline : String
  description : String
  actions : List DetailedActionItem
  total_actions : ℕ

/-- The comprehensive plan dictionary returned by
`generate_action_plan`. -/
structure DetailedActionPlanResult where
  generated_date : String
  system_name : String
  overall_risk_score : ℤ
  total_gaps : ℕ
  estimated_total_cost_min : ℚ
  estimated_total_cost_max : ℚ
  estimated_total_cost_currency : String
  estimated_completion_time : String
  executive_summary : String
  phase_1_immediate : PhasePlan
  phase_2_short_term : PhasePlan
  phase_3_long_term : PhasePlan
  system_specific_recommendations : List SystemRecommendation
  success_metrics : SuccessMetrics
  risk_reduction_projection : RiskReduction

/-- `ActionPlanner.generate_action_plan`.  `now` is the
`datetime.utcnow().isoformat()` reading for `generated_date`.  The
`ZeroDivisionError` raised by `_calculate_risk_reduction` is not caught
anywhere in the function, so it propagates as the `Except.error`. -/
def generate_action_plan (csf_gaps : List CSFGap) (system_config : SystemConfig)
    (overall_risk_score : ℤ) (now : String) :
    Except String DetailedActionPlanResult :=
  let items := csf_gaps.filterMap (detailed_item csf_gaps overall_risk_score)
  let inPhase1 := fun (it : DetailedActionItem) =>
    it.urgency = "Immediate" ∨ it.severity = .critical
  let inPhase2 := fun (it : DetailedActionItem) =>
    ¬(it.urgency = "Immediate" ∨ it.severity = .critical)
    ∧ (it.urgency = "High" ∨ it.severity = .high)
  let phase_1_actions := items.filter (fun it => inPhase1 it)
  let phase_2_actions := items.filter (fun it => inPhase2 it)
  let phase_3_actions := items.filter (fun it => ¬inPhase1 it ∧ ¬inPhase2 it)
  let total_estimated_cost : ℕ := (items.map (fun it => it.estimated_cost.max)).sum
  let bySeverity := fun (a b : DetailedActionItem) =>
    decide (severity_sort_key a.severity ≤ severity_sort_key b.severity)
  match calculate_risk_reduction csf_gaps overall_risk_score with
  | .error e => .error e
  | .ok risk_reduction => .ok
    { generated_date := now
      system_name := system_config.system_name
      overall_risk_score := overall_risk_score
      total_gaps := csf_gaps.length
      estimated_total_cost_min := (total_estimated_cost : ℚ) * (3/5)
      estimated_total_cost_max := (total_estimated_cost : ℚ) * (6/5)
      estimated_total_cost_currency := "USD"
      estimated_completion_time := "3-6 months"
      executive_summary :=
        generate_executive_summary csf_gaps.length overall_risk_score total_estimated_cost
      phase_1_immediate :=
        { timeline := "0-30 days"
          description := "Critical security gaps requiring immediate attention"
          actions := phase_1_actions.mergeSort bySeverity
          total_actions := phase_1_actions.length }
      phase_2_short_term :=
        { timeline := "30-90 days"
          description := "High-priority improvements and system enhancements"
          actions := phase_2_actions.mergeSort bySeverity
          total_actions := phase_2_actions.length }
      phase_3_long_term :=
        { timeline := "90+ days"
          description := "Strategic improvements and advanced security measures"
          actions := phase_3_actions.mergeSort bySeverity
          total_actions := phase_3_actions.length }
      system_specific_recommendations :=
        generate_system_specific_actions system_config overall_risk_score
      success_metrics := generate_success_metrics
      risk_reduction_projection := risk_reduction }

/-- Concrete vulnerability provider used in witnesses: every library
scores 3. -/
def vuln3 : String → ℕ := fun _ => 3

/-- Concrete configuration used in witnesses and counterexamples: fully
secure posture, one third-party library. -/
def cfgSecureOneLib : SystemConfig :=
  { system_name := "Demo System"
    model_type := "Linear Regression"
    data_sources := []
    deployment_env := "on_prem"
    third_party_libs := ["alpha"]
    data_lineage_documented := true
    drift_monitoring_enabled := true
    data_encryption := true
    access_controls := true
    data_integrity_checks := true
    supply_chain_policy := true
    vendor_assessment := true }

/-- The witness configuration with `data_integrity_checks` lowered. -/
def cfgNoIntegrity : SystemConfig :=
  { cfgSecureOneLib with data_integrity_checks := false }

/-- A gap whose category code has no remediation template. -/
def unknownGap : CSFGap := ⟨"XX.YY-99", "Unmatched gap", .high⟩

/-- Concrete risk-type catalog entry used in the C8 witness. -/
def demoRiskEntry : RiskTypeEntry :=
  { description := "Deliberate corruption of ML training data"
    base_risk_score := 35
    csf_mappings := ["GV.SC-01", "PR.DS-06", "ID.RA-01"]
    supply_chain_impact := "High" }

/-- Concrete one-entry catalog used in the C8 witness. -/
def demoCatalog : String → Option RiskTypeEntry := fun key =>
  if key = "training_data_poisoning" then some demoRiskEntry else none

/-- The fixed severity constant attached by each score-independent rule
of `identify_gaps`, per emitted category code. -/
def static_rule_severity (category : String) : RiskLevel :=
  if category = "GV.SC-01" then .high
  else if category = "ID.AM-03" then .medium
  else if category = "DE.CM-07" then .high
  else if category = "ID.SC-04" then .medium
  else .low

theorem pyInt_of_nonneg {q : ℚ} (h : 0 ≤ q) : pyInt q = ⌊q⌋ := by
  simp [pyInt, not_lt.mpr h]

theorem overall_score_eq (v : String → ℕ) (m : ℚ) (now : String) (cfg : SystemConfig) :
    (assess_system v m now cfg).overall_risk_score
      = min (pyInt ((base_risk_score v cfg : ℚ) * m)) 100 := rfl

theorem score_mono_of_base_le (v : String → ℕ) (now : String) {m : ℚ} (hm : 0 ≤ m)
    {c1 c2 : SystemConfig} (hb : base_risk_score v c1 ≤ base_risk_score v c2) :
    (assess_system v m now c1).overall_risk_score
      ≤ (assess_system v m now c2).overall_risk_score := by
  rw [overall_score_eq, overall_score_eq]
  have h1 : (0:ℚ) ≤ (base_risk_score v c1 : ℚ) * m :=
    mul_nonneg (by positivity) hm
  have h2 : (0:ℚ) ≤ (base_risk_score v c2 : ℚ) * m :=
    mul_nonneg (by positivity) hm
  refine min_le_min ?_ le_rfl
  rw [pyInt_of_nonneg h1, pyInt_of_nonneg h2]
  exact Int.floor_le_floor (mul_le_mul_of_nonneg_right (by exact_mod_cast hb) hm)

/-- C1: for every system configuration (and any non-negative resolved
stress multiplier), the overall risk score returned by
`RiskScorer.assess_system` is an integer in [0, 100] inclusive. -/
theorem overall_score_in_range (v : String → ℕ) (m : ℚ) (now : String)
    (cfg : SystemConfig) (hm : 0 ≤ m) :
    0 ≤ (assess_system v m now cfg).overall_risk_score
    ∧ (assess_system v m now cfg).overall_risk_score ≤ 100 := by
  rw [overall_score_eq]
  have hq : (0:ℚ) ≤ (base_risk_score v cfg : ℚ) * m := mul_nonneg (by positivity) hm
  refine ⟨le_min ?_ (by norm_num), min_le_right _ _⟩
  rw [pyInt_of_nonneg hq]
  exact Int.floor_nonneg.mpr hq

theorem overall_score_in_range_witness :
    0 ≤ (1:ℚ)
    ∧ (0 ≤ (assess_system vuln3 1 "2024-01-01T00:00:00" cfgSecureOneLib).overall_risk_score
       ∧ (assess_system vuln3 1 "2024-01-01T00:00:00" cfgSecureOneLib).overall_risk_score ≤ 100) :=
  ⟨by norm_num,
   overall_score_in_range vuln3 1 "2024-01-01T00:00:00" cfgSecureOneLib (by norm_num)⟩

/-- C2 counterexample: at a fully secure configuration with one library
scoring 3, the base score is 3 and `assess_system` returns
`int(3 * 1.2) = 3`, while the claimed `min(100, round(base * 1.2))`
is 4 — the code truncates rather than rounding to nearest. -/
theorem truncation_not_rounding_counterexample :
    ¬ ((assess_system vuln3 (6/5) "2024-01-01T00:00:00" cfgSecureOneLib).overall_risk_score
       = min 100 (round ((base_risk_score vuln3 cfgSecureOneLib : ℚ) * (6/5)))) := by
  have hb : base_risk_score vuln3 cfgSecureOneLib = 3 := by rfl
  rw [overall_score_eq, hb]
  have h1 : ((3:ℕ):ℚ) * (6/5) = 18/5 := by norm_num
  rw [h1]
  have h2 : pyInt (18/5) = 3 := by
    rw [pyInt_of_nonneg (by norm_num),
      show ((18:ℚ)/5) = ((18:ℤ):ℚ)/((5:ℕ):ℚ) by norm_num,
      Rat.floor_intCast_div_natCast]
    norm_num
  have h3 : round ((18:ℚ)/5) = 4 := by
    rw [round_eq,
      show ((18:ℚ)/5 + 1/2) = ((41:ℤ):ℚ)/((10:ℕ):ℚ) by norm_num,
      Rat.floor_intCast_div_natCast]
    norm_num
  rw [h2, h3]
  norm_num [min_def]

/-- C2 amended: the final score equals the pre-multiplier base score
times the stress multiplier, truncated toward zero (floor, since the
product is non-negative) and clamped at 100; in particular, with
multiplier 1.2 the final score is `min(100, (6 * base) / 5)` with
integer (floor) division — not round-to-nearest. -/
theorem overall_score_truncation (v : String → ℕ) (now : String)
    (cfg : SystemConfig) (m : ℚ) (hm : 0 ≤ m) :
    (assess_system v m now cfg).overall_risk_score
      = min 100 ⌊(base_risk_score v cfg : ℚ) * m⌋
    ∧ (assess_system v (6/5) now cfg).overall_risk_score
      = min 100 ((6 * (base_risk_score v cfg : ℤ)) / 5) := by
  constructor
  · rw [overall_score_eq, pyInt_of_nonneg (mul_nonneg (by positivity) hm), min_comm]
  · rw [overall_score_eq, pyInt_of_nonneg (mul_nonneg (by positivity) (by norm_num)), min_comm]
    congr 1
    have : (base_risk_score v cfg : ℚ) * (6/5)
        = ((6 * (base_risk_score v cfg : ℤ) : ℤ) : ℚ) / ((5:ℕ) : ℚ) := by
      push_cast
      ring
    rw [this, Rat.floor_intCast_div_natCast]
    norm_num

theorem overall_score_truncation_witness :
    0 ≤ (1:ℚ)
    ∧ ((assess_system vuln3 1 "2024-01-01T00:00:00" cfgSecureOneLib).overall_risk_score
        = min 100 ⌊(base_risk_score vuln3 cfgSecureOneLib : ℚ) * 1⌋
       ∧ (assess_system vuln3 (6/5) "2024-01-01T00:00:00" cfgSecureOneLib).overall_risk_score
        = min 100 ((6 * (base_risk_score vuln3 cfgSecureOneLib : ℤ)) / 5)) :=
  ⟨by norm_num,
   overall_score_truncation vuln3 "2024-01-01T00:00:00" cfgSecureOneLib 1 (by norm_num)⟩

/-- C3 counterexample: two calls of `assess_system` with identical
configuration and identical external-provider responses but different
wall-clock readings return different results — the
`assessment_timestamp` field differs. -/
theorem assess_timestamp_differs_counterexample :
    assess_system vuln3 1 "2024-01-01T00:00:00" cfgSecureOneLib
      ≠ assess_system vuln3 1 "2024-01-01T00:00:01" cfgSecureOneLib := by
  intro h
  exact absurd (congrArg Assessment.assessment_timestamp h) (by decide)

/-- C3 amended: with identical configuration and identical
external-provider responses, two calls of `assess_system` agree on
every field except `assessment_timestamp`, which copies the wall
clock; the result is a pure function of configuration, provider
responses, and clock. -/
theorem assess_deterministic_up_to_timestamp (v : String → ℕ) (m : ℚ)
    (t t' : String) (cfg : SystemConfig) :
    (assess_system v m t cfg).overall_risk_score
      = (assess_system v m t' cfg).overall_risk_score
    ∧ (assess_system v m t cfg).risk_factors = (assess_system v m t' cfg).risk_factors
    ∧ (assess_system v m t cfg).economic_multiplier
      = (assess_system v m t' cfg).economic_multiplier
    ∧ (assess_system v m t cfg).assessment_timestamp = t :=
  ⟨rfl, rfl, rfl, rfl⟩

/-- C4 counterexample: with a FRED API key configured but both series
fetches failing (timeout / error / no data), the resolved stress
multiplier is 1.0, not the claimed conservative default 1.2. -/
theorem stress_failure_default_counterexample :
    get_economic_stress_multiplier none 0 (some "key") none none = 1
    ∧ get_economic_stress_multiplier none 0 (some "key") none none ≠ 6/5 := by
  constructor <;>
    norm_num [get_economic_stress_multiplier, fetch_economic_stress_indicator,
      calculate_stress_multiplier]

/-- C4 amended: multiplier resolution never propagates an error and
always yields a value in [1.0, 2.0]; the fixed conservative default 1.2
(bounded to [1.0, 2.0]) is substituted only when the provider is
unconfigured (no API key), while a configured provider whose series
fetches all fail resolves to 1.0. -/
theorem stress_multiplier_fallbacks (fredApiKey : Option String)
    (vix gdp : Option ℚ) (now : ℚ) :
    (fredApiKey = none →
      get_economic_stress_multiplier none now fredApiKey vix gdp = 6/5)
    ∧ (∀ k, fredApiKey = some k → vix = none → gdp = none →
      get_economic_stress_multiplier none now fredApiKey vix gdp = 1)
    ∧ 1 ≤ get_economic_stress_multiplier none now fredApiKey vix gdp
    ∧ get_economic_stress_multiplier none now fredApiKey vix gdp ≤ 2 := by
  cases fredApiKey with
  | none =>
    refine ⟨fun _ => ?_, fun k hk => by simp at hk, ?_, ?_⟩ <;>
      norm_num [get_economic_stress_multiplier, fetch_economic_stress_indicator,
        fallback_economic_stress]
  | some k =>
    refine ⟨fun h => by simp at h, ?_, ?_, ?_⟩
    · intro k2 hk hv hg
      subst hv; subst hg
      norm_num [get_economic_stress_multiplier, fetch_economic_stress_indicator,
        calculate_stress_multiplier]
    · exact le_max_left _ _
    · exact max_le (by norm_num) (min_le_right _ _)

theorem stress_multiplier_fallbacks_witness :
    get_economic_stress_multiplier none 0 none none none = 6/5
    ∧ get_economic_stress_multiplier none 0 (some "k") none none = 1 :=
  ⟨(stress_multiplier_fallbacks none none none 0).1 rfl,
   (stress_multiplier_fallbacks (some "k") none none 0).2.1 "k" rfl rfl rfl⟩

/-- C5 counterexample: a single gap whose category code has no
remediation template yields no action item — the item count before the
top-10 cap does not equal the gap count; the gap is silently dropped
rather than rendered from a default template. -/
theorem unmatched_gap_dropped_counterexample :
    ¬ ((simple_plan_items [unknownGap]).length = ([unknownGap] : List CSFGap).length) := by
  decide

/-- C5 amended: the number of simple-plan items generated before the
top-10 cap equals the number of gaps whose category code has a
remediation template; gaps without a template are silently dropped
(there is no default-template fallback in
`generate_action_plan_simple`). -/
theorem simple_plan_counts_templated_gaps (csf_gaps : List CSFGap) :
    (simple_plan_items csf_gaps).length
      = (csf_gaps.filter
          (fun gap => (remediation_templates gap.category).isSome)).length := by
  induction csf_gaps with
  | nil => rfl
  | cons g gs ih =>
    cases h : remediation_templates g.category <;>
      simp [simple_plan_items, List.filterMap_cons, List.filter_cons, h] <;>
      simpa [simple_plan_items] using ih

/-- C6: flipping any single boolean posture flag
(`data_lineage_documented`, `drift_monitoring_enabled`,
`data_encryption`, `access_controls`) from its secure value (`true`)
to its insecure value (`false`), holding everything else and the
provider responses fixed, never decreases the overall risk score. -/
theorem posture_flag_flip_monotone (v : String → ℕ) (m : ℚ) (now : String)
    (cfg : SystemConfig) (hm : 0 ≤ m) :
    (assess_system v m now { cfg with data_lineage_documented := true }).overall_risk_score
      ≤ (assess_system v m now { cfg with data_lineage_documented := false }).overall_risk_score
    ∧ (assess_system v m now { cfg with drift_monitoring_enabled := true }).overall_risk_score
      ≤ (assess_system v m now { cfg with drift_monitoring_enabled := false }).overall_risk_score
    ∧ (assess_system v m now { cfg with data_encryption := true }).overall_risk_score
      ≤ (assess_system v m now { cfg with data_encryption := false }).overall_risk_score
    ∧ (assess_system v m now { cfg with access_controls := true }).overall_risk_score
      ≤ (assess_system v m now { cfg with access_controls := false }).overall_risk_score := by
  refine ⟨score_mono_of_base_le v now hm ?_, score_mono_of_base_le v now hm ?_,
    score_mono_of_base_le v now hm ?_, score_mono_of_base_le v now hm ?_⟩ <;>
    simp [base_risk_score]

theorem posture_flag_flip_monotone_witness :
    0 ≤ (1:ℚ)
    ∧ ((assess_system vuln3 1 "t" { cfgSecureOneLib with data_lineage_documented := true }).overall_risk_score
        ≤ (assess_system vuln3 1 "t" { cfgSecureOneLib with data_lineage_documented := false }).overall_risk_score
      ∧ (assess_system vuln3 1 "t" { cfgSecureOneLib with drift_monitoring_enabled := true }).overall_risk_score
        ≤ (assess_system vuln3 1 "t" { cfgSecureOneLib with drift_monitoring_enabled := false }).overall_risk_score
      ∧ (assess_system vuln3 1 "t" { cfgSecureOneLib with data_encryption := true }).overall_risk_score
        ≤ (assess_system vuln3 1 "t" { cfgSecureOneLib with data_encryption := false }).overall_risk_score
      ∧ (assess_system vuln3 1 "t" { cfgSecureOneLib with access_controls := true }).overall_risk_score
        ≤ (assess_system vuln3 1 "t" { cfgSecureOneLib with access_controls := false }).overall_risk_score) :=
  ⟨by norm_num, posture_flag_flip_monotone vuln3 1 "t" cfgSecureOneLib (by norm_num)⟩

/-- C7: with `data_integrity_checks = false`, `identify_gaps` emits the
PR.DS-06 gap with severity Critical exactly when the overall score
exceeds 70 and High otherwise, and every other emitted gap carries its
rule's fixed severity constant, independent of the score. -/
theorem identify_gaps_integrity_escalation (cfg : SystemConfig) (s : ℤ)
    (h : cfg.data_integrity_checks = false) :
    (⟨"PR.DS-06", "Training data integrity verification not implemented",
      if 70 < s then RiskLevel.critical else RiskLevel.high⟩ : CSFGap) ∈ identify_gaps cfg s
    ∧ ∀ g ∈ identify_gaps cfg s, g.category ≠ "PR.DS-06" →
        g.severity = static_rule_severity g.category := by
  constructor
  · simp [identify_gaps, h]
  · intro g hg hne
    simp [identify_gaps, h, List.mem_append] at hg
    rcases hg with h1 | h2 | h3 | h4 | h5 <;> simp_all [static_rule_severity]

theorem identify_gaps_integrity_escalation_witness :
    ((⟨"PR.DS-06", "Training data integrity verification not implemented",
       if (70:ℤ) < 85 then RiskLevel.critical else RiskLevel.high⟩ : CSFGap)
        ∈ identify_gaps cfgNoIntegrity 85
      ∧ ∀ g ∈ identify_gaps cfgNoIntegrity 85, g.category ≠ "PR.DS-06" →
          g.severity = static_rule_severity g.category)
    ∧ ((⟨"PR.DS-06", "Training data integrity verification not implemented",
       if (70:ℤ) < 50 then RiskLevel.critical else RiskLevel.high⟩ : CSFGap)
        ∈ identify_gaps cfgNoIntegrity 50
      ∧ ∀ g ∈ identify_gaps cfgNoIntegrity 50, g.category ≠ "PR.DS-06" →
          g.severity = static_rule_severity g.category) :=
  ⟨identify_gaps_integrity_escalation cfgNoIntegrity 85 rfl,
   identify_gaps_integrity_escalation cfgNoIntegrity 50 rfl⟩

/-- C8: `map_risk_to_csf` returns null for every key absent from the
risk-type catalog; for every present key (whose entry, per the spec,
has a non-empty set of mapped category codes) it returns a non-empty
category list in which each category's severity follows the fixed rule:
Critical when the category is in the critical set and the base score
exceeds 30; else High when it is in the high set or the base score
exceeds 25; else Medium when the base score exceeds 15; else Low. -/
theorem map_risk_to_csf_null_or_nonempty (catalog : String → Option RiskTypeEntry)
    (categoryDescription : String → Option String) (key : String) :
    (catalog key = none → map_risk_to_csf catalog categoryDescription key = none)
    ∧ (∀ e, catalog key = some e → e.csf_mappings ≠ [] →
        ∃ m, map_risk_to_csf catalog categoryDescription key = some m
          ∧ m.categories ≠ []
          ∧ ∀ cat ∈ m.categories,
              cat.severity =
                (if cat.code ∈ critical_categories ∧ 30 < e.base_risk_score then .critical
                 else if cat.code ∈ high_categories ∨ 25 < e.base_risk_score then .high
                 else if 15 < e.base_risk_score then .medium
                 else .low)) := by
  constructor
  · intro h
    simp [map_risk_to_csf, h]
  · intro e he hne
    simp only [map_risk_to_csf, he]
    refine ⟨_, rfl, ?_, ?_⟩
    · exact fun hmap => hne (List.map_eq_nil_iff.mp hmap)
    · intro cat hcat
      simp only [List.mem_map] at hcat
      obtain ⟨c, _, rfl⟩ := hcat
      simp [assess_category_severity]

theorem map_risk_to_csf_null_or_nonempty_witness :
    demoCatalog "training_data_poisoning" = some demoRiskEntry
    ∧ demoRiskEntry.csf_mappings ≠ []
    ∧ ∃ m, map_risk_to_csf demoCatalog (fun _ => none) "training_data_poisoning" = some m
        ∧ m.categories ≠ []
        ∧ ∀ cat ∈ m.categories,
            cat.severity =
              (if cat.code ∈ critical_categories ∧ 30 < demoRiskEntry.base_risk_score then .critical
               else if cat.code ∈ high_categories ∨ 25 < demoRiskEntry.base_risk_score then .high
               else if 15 < demoRiskEntry.base_risk_score then .medium
               else .low) :=
  ⟨rfl, by decide,
   (map_risk_to_csf_null_or_nonempty demoCatalog (fun _ => none)
     "training_data_poisoning").2 demoRiskEntry rfl (by decide)⟩

theorem plan_le_trans (a b c : ActionPlan) (hab : plan_le a b) (hbc : plan_le b c) :
    plan_le a c := by
  simp only [plan_le, decide_eq_true_eq] at *
  rcases hab with h | ⟨h1, h2⟩ <;> rcases hbc with h' | ⟨h1', h2'⟩
  · exact Or.inl (lt_trans h h')
  · exact Or.inl (h1' ▸ h)
  · exact Or.inl (h1 ▸ h')
  · exact Or.inr ⟨h1.trans h1', le_trans h2 h2'⟩

theorem plan_le_total (a b : ActionPlan) : plan_le a b || plan_le b a := by
  simp only [plan_le, Bool.or_eq_true, decide_eq_true_eq]
  rcases lt_trichotomy (if a.priority = "High" then (0:ℕ) else 1)
      (if b.priority = "High" then (0:ℕ) else 1) with h | h | h
  · exact Or.inl (Or.inl h)
  · rcases le_total a.category b.category with hc | hc
    · exact Or.inl (Or.inr ⟨h, hc⟩)
    · exact Or.inr (Or.inr ⟨h.symm, hc⟩)
  · exact Or.inr (Or.inl h)

/-- C9: the simple-form action plan contains at most 10 items, is
sorted by priority (High before Medium, i.e. ascending priority rank)
and then by category code ascending, and an empty gap list yields an
empty list. -/
theorem simple_plan_sorted_capped (csf_gaps : List CSFGap)
    (cfg : SystemConfig) (s : ℤ) :
    (generate_action_plan_simple csf_gaps cfg s).Sorted (fun a b =>
        (if a.priority = "High" then (0:ℕ) else 1) < (if b.priority = "High" then 0 else 1)
        ∨ ((if a.priority = "High" then (0:ℕ) else 1) = (if b.priority = "High" then 0 else 1)
            ∧ a.category ≤ b.category))
    ∧ (generate_action_plan_simple csf_gaps cfg s).length ≤ 10
    ∧ generate_action_plan_simple ([] : List CSFGap) cfg s = [] := by
  refine ⟨?_, ?_, by simp [generate_action_plan_simple, simple_plan_items]⟩
  · have hs : ((simple_plan_items csf_gaps).mergeSort plan_le).Pairwise
        (fun a b => plan_le a b = true) :=
      List.sorted_mergeSort (fun a b c => plan_le_trans a b c) plan_le_total _
    have ht : (generate_action_plan_simple csf_gaps cfg s).Pairwise
        (fun a b => plan_le a b = true) :=
      hs.sublist (List.take_sublist _ _)
    exact ht.imp (fun hab => of_decide_eq_true hab)
  · simp [generate_action_plan_simple]

/-- C10: the detailed plan's risk-reduction projection divides by the
current overall risk score, so `generate_action_plan` called with an
overall risk score of 0 raises an unhandled `ZeroDivisionError` for
every gap list and configuration — the detailed plan operation is not
total on its valid inputs. -/
theorem detailed_plan_zero_score_raises (csf_gaps : List CSFGap)
    (cfg : SystemConfig) (now : String) :
    generate_action_plan csf_gaps cfg 0 now
      = Except.error "ZeroDivisionError: division by zero" := by
  simp [generate_action_plan, calculate_risk_reduction]

end NistDemo
